import Mathlib

/-!
Verification of the taskchampion SQLite storage backend
(`src/taskchampion/src/storage/sqlite.rs`) against its specification.

The SQLite database state is shallowly embedded: each table is an
association list, a live `rusqlite::Transaction` is the working copy of
the database held by `Txn`, `commit` installs the working copy, and
dropping a transaction without commit discards the working copy
(rusqlite's default drop behavior is rollback).

Serialized JSON values in the `data` column are modelled by the `Json`
type, which distinguishes exactly the shapes that matter to
`serde_json` decoding at the types used by the code: the JSON literal
`null`, an object whose values are all strings (a well-formed
serialized `TaskMap`), and anything else (undecodable at those types).
-/

namespace TaskchampionSqlite

/-- Uuids are modelled by their canonical string form; the storage layer
never inspects their structure. -/
abbrev Uuid := String

/-- Version identifiers are uuids (`VersionId` in the source). -/
abbrev VersionId := Uuid

/-- Modelled from the spec: `DEFAULT_BASE_VERSION` is imported by the
sample from `crate::storage`, which is outside the sample; the spec
says it is the all-zero 128-bit identifier. -/
def DEFAULT_BASE_VERSION : VersionId := "00000000-0000-0000-0000-000000000000"

/-- A TaskMap is an opaque string-to-string dictionary
(`HashMap<String, String>` in the source), modelled as an association
list. -/
abbrev TaskMap := List (String × String)

/-- The equivalence classes of stored `data` strings relevant to
`serde_json` decoding at types `TaskMap` and `Option<TaskMap>`:
`null` is the JSON literal null; `obj m` is a JSON object all of whose
values are strings; `invalid s` is any other string (not valid JSON,
or valid JSON of the wrong shape). -/
inductive Json where
  | null : Json
  | obj : TaskMap → Json
  | invalid : String → Json
deriving DecidableEq

/-- Result of `serde_json::to_string` on a `TaskMap`. -/
def encodeTaskMap (m : TaskMap) : Json := Json.obj m

/-- Result of `serde_json::from_str::<TaskMap>`: succeeds exactly on a
string-valued JSON object. -/
def decodeTaskMap : Json → Option TaskMap
  | Json.obj m => some m
  | _ => none

/-- Result of `serde_json::from_str::<Option<TaskMap>>`: serde decodes
JSON `null` to `None` and otherwise defers to the `TaskMap` decoder. -/
def decodeOptTaskMap : Json → Option (Option TaskMap)
  | Json.null => some none
  | j => (decodeTaskMap j).map some

/-- The `Operation` variant from `crate::storage` (declared outside the
sample): Create, Delete, Update and UndoPoint.  Timestamps are
modelled as naturals. -/
inductive Operation where
  | create : Uuid → Operation
  | delete : Uuid → Operation
  | update : Uuid → String → Option String → Option String → Nat → Operation
  | undoPoint : Operation
deriving DecidableEq

/-- The logical state of the database file: exactly the two tables
that `SqliteStorage::new` creates.  The backend's operation-log and
working-set methods are `todo!()` stubs that never create or touch
any further table. -/
structure SqliteDb where
  tasks : List (Uuid × Json)
  sync_meta : List (String × String)
deriving DecidableEq

def SqliteDb.empty : SqliteDb := ⟨[], []⟩

/-- Errors surfaced through `anyhow::Result`: the `SqliteError`
variants of the source plus a decode fault from `serde_json`. -/
inductive StorageError where
  | transactionAlreadyCommitted : StorageError
  | invalidUuidString : String → StorageError
  | decodeError : StorageError
deriving DecidableEq

/-- A computation that either panics (Rust `panic!` / `unwrap` on a
failing decode) or produces a value.  A panic aborts the whole call;
it is not an error return. -/
inductive PanicOr (α : Type) where
  | panic : PanicOr α
  | ok : α → PanicOr α
deriving DecidableEq

/-- The `Txn` struct: `txn` is `Some` working database while the native
transaction is live, and `None` once `commit` has consumed it. -/
structure Txn where
  txn : Option SqliteDb
deriving DecidableEq

/-- The `SqliteStorage` struct; `db` is the committed on-disk state. -/
structure SqliteStorage where
  db : SqliteDb
deriving DecidableEq

/-- `Storage::txn`: opens a native transaction whose working state is
the committed state. -/
def SqliteStorage.txn (s : SqliteStorage) : Txn := ⟨some s.db⟩

/-- Row lookup by primary key: `SELECT ... WHERE uuid = ? LIMIT 1`. -/
def rowGet (u : Uuid) (rows : List (Uuid × Json)) : Option Json :=
  (rows.find? (fun r => r.1 == u)).map (fun r => r.2)

/-- `SELECT count(uuid) FROM tasks WHERE uuid = ?` compared with 0. -/
def taskExists (u : Uuid) (db : SqliteDb) : Bool :=
  db.tasks.any (fun r => r.1 == u)

/-- String lookup in `sync_meta`. -/
def metaGet (k : String) (rows : List (String × String)) : Option String :=
  (rows.find? (fun r => r.1 == k)).map (fun r => r.2)

/-- `INSERT OR REPLACE`: SQLite removes any row with the conflicting
primary key and inserts the new row. -/
def upsertRow (u : Uuid) (j : Json) (rows : List (Uuid × Json)) : List (Uuid × Json) :=
  rows.filter (fun r => r.1 != u) ++ [(u, j)]

def upsertMeta (k v : String) (rows : List (String × String)) : List (String × String) :=
  rows.filter (fun r => r.1 != k) ++ [(k, v)]

/-- `get_task` body (after the `get_txn` check): select the `data`
column and deserialize it as `Option<TaskMap>`; an absent row yields
`None` directly. -/
def db_get_task (u : Uuid) (db : SqliteDb) : Except StorageError (Option TaskMap) :=
  match rowGet u db.tasks with
  | none => Except.ok none
  | some j =>
    match decodeOptTaskMap j with
    | none => Except.error StorageError.decodeError
    | some r => Except.ok r

/-- `create_task` body: count rows for the uuid; if any exist return
`false`, else insert the serialized empty `TaskMap` and return
`true`. -/
def db_create_task (u : Uuid) (db : SqliteDb) : Bool × SqliteDb :=
  if taskExists u db then (false, db)
  else (true, { db with tasks := db.tasks ++ [(u, encodeTaskMap [])] })

/-- `set_task` body: serialize the map and `INSERT OR REPLACE`. -/
def db_set_task (u : Uuid) (m : TaskMap) (db : SqliteDb) : SqliteDb :=
  { db with tasks := upsertRow u (encodeTaskMap m) db.tasks }

/-- `delete_task` body: `DELETE FROM tasks WHERE uuid = ?`; the result
is whether the change count was positive. -/
def db_delete_task (u : Uuid) (db : SqliteDb) : Bool × SqliteDb :=
  (db.tasks.any (fun r => r.1 == u),
   { db with tasks := db.tasks.filter (fun r => r.1 != u) })

/-- The row-collection loop of `all_tasks`: each row's `data` is
deserialized as `TaskMap` with `.unwrap()`, so the first undecodable
row panics; rows are processed in order. -/
def collectTasks : List (Uuid × Json) → PanicOr (List (Uuid × TaskMap))
  | [] => PanicOr.ok []
  | (u, j) :: rest =>
    match decodeTaskMap j with
    | none => PanicOr.panic
    | some m =>
      match collectTasks rest with
      | PanicOr.panic => PanicOr.panic
      | PanicOr.ok l => PanicOr.ok ((u, m) :: l)

/-- `all_tasks` body. -/
def db_all_tasks (db : SqliteDb) : PanicOr (List (Uuid × TaskMap)) :=
  collectTasks db.tasks

/-- `all_task_uuids` body. -/
def db_all_task_uuids (db : SqliteDb) : List Uuid :=
  db.tasks.map (fun r => r.1)

/-- `base_version` body: look up key `base_version` in `sync_meta` and
default to `DEFAULT_BASE_VERSION`. -/
def db_base_version (db : SqliteDb) : VersionId :=
  (metaGet "base_version" db.sync_meta).getD DEFAULT_BASE_VERSION

/-- `set_base_version` body: `INSERT OR REPLACE` under key
`base_version`. -/
def db_set_base_version (v : VersionId) (db : SqliteDb) : SqliteDb :=
  { db with sync_meta := upsertMeta "base_version" v db.sync_meta }

/-!
The seven operation-log and working-set methods of the backend
(`operations`, `add_operation`, `set_operations`, `get_working_set`,
`add_to_working_set`, `set_working_set_item`, `clear_working_set`,
sqlite.rs lines 172-198) are `todo!()` stubs: each panics
unconditionally, before any `get_txn` check and before touching any
table.  They are therefore embedded as unconditional panics, exactly
like the failing `.unwrap()` in `all_tasks`.
-/

/-- `Txn::get_txn` as a pattern: every method first obtains the live
native transaction and fails with `TransactionAlreadyCommitted` when
it has been consumed.  `liftRead` wraps a read-only body. -/
def Txn.liftRead {α : Type} (f : SqliteDb → Except StorageError α) (t : Txn) :
    Except StorageError (α × Txn) :=
  match t.txn with
  | none => Except.error StorageError.transactionAlreadyCommitted
  | some db => (f db).map (fun a => (a, t))

/-- Wrapper for a method body that returns a value and mutates the
working database. -/
def Txn.liftWrite {α : Type} (f : SqliteDb → α × SqliteDb) (t : Txn) :
    Except StorageError (α × Txn) :=
  match t.txn with
  | none => Except.error StorageError.transactionAlreadyCommitted
  | some db =>
    let r := f db
    Except.ok (r.1, ⟨some r.2⟩)

/-- `StorageTxn::get_task` for the SQLite backend. -/
def Txn.get_task (u : Uuid) (t : Txn) : Except StorageError (Option TaskMap × Txn) :=
  Txn.liftRead (db_get_task u) t

/-- `StorageTxn::create_task` for the SQLite backend. -/
def Txn.create_task (u : Uuid) (t : Txn) : Except StorageError (Bool × Txn) :=
  Txn.liftWrite (db_create_task u) t

/-- `StorageTxn::set_task` for the SQLite backend. -/
def Txn.set_task (u : Uuid) (m : TaskMap) (t : Txn) : Except StorageError (Unit × Txn) :=
  Txn.liftWrite (fun db => ((), db_set_task u m db)) t

/-- `StorageTxn::delete_task` for the SQLite backend. -/
def Txn.delete_task (u : Uuid) (t : Txn) : Except StorageError (Bool × Txn) :=
  Txn.liftWrite (db_delete_task u) t

/-- `StorageTxn::all_tasks` for the SQLite backend: the `get_txn` check
precedes the row loop, whose failing `.unwrap()` on a bad row is a
panic rather than an error return. -/
def Txn.all_tasks (t : Txn) : PanicOr (Except StorageError (List (Uuid × TaskMap) × Txn)) :=
  match t.txn with
  | none => PanicOr.ok (Except.error StorageError.transactionAlreadyCommitted)
  | some db =>
    match db_all_tasks db with
    | PanicOr.panic => PanicOr.panic
    | PanicOr.ok l => PanicOr.ok (Except.ok (l, t))

/-- `StorageTxn::all_task_uuids` for the SQLite backend. -/
def Txn.all_task_uuids (t : Txn) : Except StorageError (List Uuid × Txn) :=
  Txn.liftRead (fun db => Except.ok (db_all_task_uuids db)) t

/-- `StorageTxn::base_version` for the SQLite backend. -/
def Txn.base_version (t : Txn) : Except StorageError (VersionId × Txn) :=
  Txn.liftRead (fun db => Except.ok (db_base_version db)) t

/-- `StorageTxn::set_base_version` for the SQLite backend. -/
def Txn.set_base_version (v : VersionId) (t : Txn) : Except StorageError (Unit × Txn) :=
  Txn.liftWrite (fun db => ((), db_set_base_version v db)) t

/-- `StorageTxn::operations` is `todo!()`: it panics unconditionally,
with no `get_txn` check and no table access. -/
def Txn.operations (_ : Txn) : PanicOr (Except StorageError (List Operation × Txn)) :=
  PanicOr.panic

/-- `StorageTxn::add_operation` is `todo!()`: it panics
unconditionally. -/
def Txn.add_operation (_ : Operation) (_ : Txn) :
    PanicOr (Except StorageError (Unit × Txn)) :=
  PanicOr.panic

/-- `StorageTxn::set_operations` is `todo!()`: it panics
unconditionally. -/
def Txn.set_operations (_ : List Operation) (_ : Txn) :
    PanicOr (Except StorageError (Unit × Txn)) :=
  PanicOr.panic

/-- `StorageTxn::get_working_set` is `todo!()`: it panics
unconditionally. -/
def Txn.get_working_set (_ : Txn) :
    PanicOr (Except StorageError (List (Option Uuid) × Txn)) :=
  PanicOr.panic

/-- `StorageTxn::add_to_working_set` is `todo!()`: it panics
unconditionally. -/
def Txn.add_to_working_set (_ : Uuid) (_ : Txn) :
    PanicOr (Except StorageError (Nat × Txn)) :=
  PanicOr.panic

/-- `StorageTxn::set_working_set_item` is `todo!()`: it panics
unconditionally. -/
def Txn.set_working_set_item (_ : Nat) (_ : Option Uuid) (_ : Txn) :
    PanicOr (Except StorageError (Unit × Txn)) :=
  PanicOr.panic

/-- `StorageTxn::clear_working_set` is `todo!()`: it panics
unconditionally. -/
def Txn.clear_working_set (_ : Txn) : PanicOr (Except StorageError (Unit × Txn)) :=
  PanicOr.panic

/-- `StorageTxn::commit`: `take` the native transaction (failing with
`TransactionAlreadyCommitted` if already taken) and commit it, which
installs the working state as the committed state. -/
def Txn.commit (t : Txn) (_s : SqliteStorage) : Except StorageError (SqliteStorage × Txn) :=
  match t.txn with
  | none => Except.error StorageError.transactionAlreadyCommitted
  | some db => Except.ok (⟨db⟩, ⟨none⟩)

/-- Dropping a `Txn` without commit: rusqlite's `Transaction` rolls
back on drop, so the committed state is exactly what it was when the
transaction was opened. -/
def Txn.discard (_ : Txn) (s : SqliteStorage) : SqliteStorage := s

/-- The write operations a transaction may perform, used to quantify
over arbitrary in-transaction activity. -/
inductive TxnOp where
  | createTask : Uuid → TxnOp
  | setTask : Uuid → TaskMap → TxnOp
  | deleteTask : Uuid → TxnOp
  | setBaseVersion : VersionId → TxnOp
  | addOperation : Operation → TxnOp
  | setOperationsOp : List Operation → TxnOp
  | addToWorkingSet : Uuid → TxnOp
  | setWorkingSetItem : Nat → Option Uuid → TxnOp
  | clearWorkingSet : TxnOp
deriving DecidableEq

/-- Effect of one write on the working database.  The operation-log
and working-set cases are `todo!()` stubs in the source: they panic
before performing any write, so they have no effect on the
database. -/
def applyDbOp (db : SqliteDb) : TxnOp → SqliteDb
  | TxnOp.createTask u => (db_create_task u db).2
  | TxnOp.setTask u m => db_set_task u m db
  | TxnOp.deleteTask u => (db_delete_task u db).2
  | TxnOp.setBaseVersion v => db_set_base_version v db
  | TxnOp.addOperation _ => db
  | TxnOp.setOperationsOp _ => db
  | TxnOp.addToWorkingSet _ => db
  | TxnOp.setWorkingSetItem _ _ => db
  | TxnOp.clearWorkingSet => db

/-- Effect of a sequence of writes on a live transaction; a consumed
transaction is left unchanged (each write would only error). -/
def applyOps (t : Txn) (l : List TxnOp) : Txn :=
  ⟨t.txn.map (fun db => l.foldl applyDbOp db)⟩

/-- One storage-method invocation, for quantifying over "any further
invocation" on a transaction. -/
inductive Method where
  | getTaskM : Uuid → Method
  | createTaskM : Uuid → Method
  | setTaskM : Uuid → TaskMap → Method
  | deleteTaskM : Uuid → Method
  | allTasksM : Method
  | allTaskUuidsM : Method
  | baseVersionM : Method
  | setBaseVersionM : VersionId → Method
  | operationsM : Method
  | addOperationM : Operation → Method
  | setOperationsM : List Operation → Method
  | getWorkingSetM : Method
  | addToWorkingSetM : Uuid → Method
  | setWorkingSetItemM : Nat → Option Uuid → Method
  | clearWorkingSetM : Method
  | commitM : Method

/-- The possible successful results of a storage method. -/
inductive MethodOut where
  | taskOut : Option TaskMap → MethodOut
  | boolOut : Bool → MethodOut
  | unitOut : MethodOut
  | tasksOut : List (Uuid × TaskMap) → MethodOut
  | uuidsOut : List Uuid → MethodOut
  | versionOut : VersionId → MethodOut
  | opsOut : List Operation → MethodOut
  | wsOut : List (Option Uuid) → MethodOut
  | idxOut : Nat → MethodOut
deriving DecidableEq

/-- Dispatch one method invocation against a storage and transaction
pair.  Only `commit` touches the committed state; a panic (from
`all_tasks` on an undecodable row) aborts the call. -/
def runMethod (m : Method) (s : SqliteStorage) (t : Txn) :
    PanicOr (Except StorageError (MethodOut × SqliteStorage × Txn)) :=
  match m with
  | Method.getTaskM u =>
    PanicOr.ok ((Txn.get_task u t).map (fun r => (MethodOut.taskOut r.1, s, r.2)))
  | Method.createTaskM u =>
    PanicOr.ok ((Txn.create_task u t).map (fun r => (MethodOut.boolOut r.1, s, r.2)))
  | Method.setTaskM u tm =>
    PanicOr.ok ((Txn.set_task u tm t).map (fun r => (MethodOut.unitOut, s, r.2)))
  | Method.deleteTaskM u =>
    PanicOr.ok ((Txn.delete_task u t).map (fun r => (MethodOut.boolOut r.1, s, r.2)))
  | Method.allTasksM =>
    match Txn.all_tasks t with
    | PanicOr.panic => PanicOr.panic
    | PanicOr.ok r => PanicOr.ok (r.map (fun p => (MethodOut.tasksOut p.1, s, p.2)))
  | Method.allTaskUuidsM =>
    PanicOr.ok ((Txn.all_task_uuids t).map (fun r => (MethodOut.uuidsOut r.1, s, r.2)))
  | Method.baseVersionM =>
    PanicOr.ok ((Txn.base_version t).map (fun r => (MethodOut.versionOut r.1, s, r.2)))
  | Method.setBaseVersionM v =>
    PanicOr.ok ((Txn.set_base_version v t).map (fun r => (MethodOut.unitOut, s, r.2)))
  | Method.operationsM =>
    match Txn.operations t with
    | PanicOr.panic => PanicOr.panic
    | PanicOr.ok r => PanicOr.ok (r.map (fun p => (MethodOut.opsOut p.1, s, p.2)))
  | Method.addOperationM op =>
    match Txn.add_operation op t with
    | PanicOr.panic => PanicOr.panic
    | PanicOr.ok r => PanicOr.ok (r.map (fun p => (MethodOut.unitOut, s, p.2)))
  | Method.setOperationsM l =>
    match Txn.set_operations l t with
    | PanicOr.panic => PanicOr.panic
    | PanicOr.ok r => PanicOr.ok (r.map (fun p => (MethodOut.unitOut, s, p.2)))
  | Method.getWorkingSetM =>
    match Txn.get_working_set t with
    | PanicOr.panic => PanicOr.panic
    | PanicOr.ok r => PanicOr.ok (r.map (fun p => (MethodOut.wsOut p.1, s, p.2)))
  | Method.addToWorkingSetM u =>
    match Txn.add_to_working_set u t with
    | PanicOr.panic => PanicOr.panic
    | PanicOr.ok r => PanicOr.ok (r.map (fun p => (MethodOut.idxOut p.1, s, p.2)))
  | Method.setWorkingSetItemM i u =>
    match Txn.set_working_set_item i u t with
    | PanicOr.panic => PanicOr.panic
    | PanicOr.ok r => PanicOr.ok (r.map (fun p => (MethodOut.unitOut, s, p.2)))
  | Method.clearWorkingSetM =>
    match Txn.clear_working_set t with
    | PanicOr.panic => PanicOr.panic
    | PanicOr.ok r => PanicOr.ok (r.map (fun p => (MethodOut.unitOut, s, p.2)))
  | Method.commitM =>
    PanicOr.ok ((Txn.commit t s).map (fun r => (MethodOut.unitOut, r.1, r.2)))

/-- Schema-level model of the database file: the set of tables that
exist in it. -/
structure DbFile where
  tables : List String
deriving DecidableEq

/-- The table-creation portion of `SqliteStorage::new`: it runs
`CREATE TABLE IF NOT EXISTS` for `tasks` and `sync_meta` only. -/
def createIfNotExists (n : String) (f : DbFile) : DbFile :=
  if n ∈ f.tables then f else ⟨f.tables ++ [n]⟩

def SqliteStorage.newTables (f : DbFile) : DbFile :=
  createIfNotExists "sync_meta" (createIfNotExists "tasks" f)

/-! ### Helper lemmas -/

theorem find_key_upsert {κ α : Type} [BEq κ] [LawfulBEq κ] (k : κ) (v : α) (rows : List (κ × α)) :
    ((rows.filter (fun r => r.1 != k) ++ [(k, v)]).find? (fun r => r.1 == k)) = some (k, v) := by
  induction rows with
  | nil => simp
  | cons r rest ih =>
    by_cases h : r.1 = k
    · simp [h, ih]
    · simp [List.filter_cons, List.find?, h, ih]

theorem find_key_of_not_exists {κ α : Type} [BEq κ] [LawfulBEq κ] (k : κ) (v : α) (rows : List (κ × α))
    (h : rows.any (fun r => r.1 == k) = false) :
    ((rows ++ [(k, v)]).find? (fun r => r.1 == k)) = some (k, v) := by
  induction rows with
  | nil => simp
  | cons r rest ih =>
    simp only [List.any_cons, Bool.or_eq_false_iff] at h
    simpa [List.find?, h.1] using ih h.2

theorem rowGet_upsert (u : Uuid) (j : Json) (rows : List (Uuid × Json)) :
    rowGet u (upsertRow u j rows) = some j := by
  simp [rowGet, upsertRow, find_key_upsert]

theorem metaGet_upsert (k v : String) (rows : List (String × String)) :
    metaGet k (upsertMeta k v rows) = some v := by
  simp [metaGet, upsertMeta, find_key_upsert]

/-! ### C1: discarding a transaction rolls back every write -/

/-- C1: a transaction opened on storage `s` and mutated by an arbitrary
sequence of writes (task edits, operation appends, working-set edits,
base-version writes), then discarded without commit, leaves the
committed state exactly as it was when the transaction was opened, so
every later transaction opens on that same state. -/
theorem discarded_txn_rolls_back (s : SqliteStorage) (L : List TxnOp) :
    Txn.discard (applyOps (SqliteStorage.txn s) L) s = s ∧
    SqliteStorage.txn (Txn.discard (applyOps (SqliteStorage.txn s) L) s) =
      SqliteStorage.txn s :=
  ⟨rfl, rfl⟩

/-! ### C4: behavior of a committed transaction -/

/-- Whether a `Method` dispatches to an implemented body; the seven
operation-log and working-set methods are `todo!()` stubs. -/
def isImplemented : Method → Bool
  | Method.operationsM => false
  | Method.addOperationM _ => false
  | Method.setOperationsM _ => false
  | Method.getWorkingSetM => false
  | Method.addToWorkingSetM _ => false
  | Method.setWorkingSetItemM _ _ => false
  | Method.clearWorkingSetM => false
  | _ => true

/-- C4 evaluation: after `commit` has returned successfully, every
implemented storage operation and a second `commit` fail with the
distinct `TransactionAlreadyCommitted` error kind with no state change
— but the unimplemented stub methods (here `operations` and
`get_working_set` evaluated explicitly, with the rest excluded by
`isImplemented`) panic via `todo!()` instead of returning that error,
so the claim as stated fails on the program. -/
theorem committed_txn_stub_panics (s s₂ : SqliteStorage) (t t₂ : Txn)
    (h : Txn.commit t s = Except.ok (s₂, t₂)) :
    runMethod Method.operationsM s₂ t₂ = PanicOr.panic ∧
    runMethod Method.getWorkingSetM s₂ t₂ = PanicOr.panic ∧
    (∀ m : Method, isImplemented m = true →
      runMethod m s₂ t₂ =
        PanicOr.ok (Except.error StorageError.transactionAlreadyCommitted)) := by
  have ht₂ : t₂ = ⟨none⟩ := by
    cases t with
    | mk o =>
      cases o with
      | none => simp [Txn.commit] at h
      | some db =>
        simp only [Txn.commit, Except.ok.injEq, Prod.mk.injEq] at h
        exact h.2.symm
  subst ht₂
  refine ⟨rfl, rfl, ?_⟩
  intro m hm
  cases m <;>
    simp_all [runMethod, isImplemented, Txn.get_task, Txn.create_task, Txn.set_task,
      Txn.delete_task, Txn.all_tasks, Txn.all_task_uuids, Txn.base_version,
      Txn.set_base_version, Txn.commit, Txn.liftRead, Txn.liftWrite, Except.map]

/-- Witness for C4 at a concrete store: commit an empty transaction,
then call the stub method `operations` (panic) and an implemented
method, a second `commit` (`TransactionAlreadyCommitted`). -/
theorem committed_txn_stub_panics_witness :
    runMethod Method.operationsM ⟨SqliteDb.empty⟩ ⟨none⟩ = PanicOr.panic ∧
    runMethod Method.commitM ⟨SqliteDb.empty⟩ ⟨none⟩ =
      PanicOr.ok (Except.error StorageError.transactionAlreadyCommitted) :=
  ⟨(committed_txn_stub_panics ⟨SqliteDb.empty⟩ ⟨SqliteDb.empty⟩
      ⟨some SqliteDb.empty⟩ ⟨none⟩ rfl).1,
   (committed_txn_stub_panics ⟨SqliteDb.empty⟩ ⟨SqliteDb.empty⟩
      ⟨some SqliteDb.empty⟩ ⟨none⟩ rfl).2.2 Method.commitM rfl⟩

/-! ### C5: tables created at open time -/

/-- C5 evaluation: `SqliteStorage::new` on a fresh database file
creates only the `tasks` and `sync_meta` tables — the `operations`
and `working_set` tables of the specified schema are absent — and the
creation is idempotent (`CREATE TABLE IF NOT EXISTS`), so reopening
the same directory succeeds and changes nothing. -/
theorem new_creates_only_two_tables :
    (SqliteStorage.newTables ⟨[]⟩).tables = ["tasks", "sync_meta"] ∧
    "operations" ∉ (SqliteStorage.newTables ⟨[]⟩).tables ∧
    "working_set" ∉ (SqliteStorage.newTables ⟨[]⟩).tables ∧
    ∀ f : DbFile, SqliteStorage.newTables (SqliteStorage.newTables f) =
      SqliteStorage.newTables f := by
  refine ⟨by decide, by decide, by decide, ?_⟩
  intro f
  have h1 : ∀ (n : String) (g : DbFile), n ∈ (createIfNotExists n g).tables := by
    intro n g
    by_cases h : n ∈ g.tables <;> simp [createIfNotExists, h]
  have h2 : ∀ (n m : String) (g : DbFile), m ∈ g.tables → m ∈ (createIfNotExists n g).tables := by
    intro n m g h
    by_cases hn : n ∈ g.tables <;> simp [createIfNotExists, hn, h]
  have h3 : ∀ (n : String) (g : DbFile), n ∈ g.tables → createIfNotExists n g = g := by
    intro n g h
    simp [createIfNotExists, h]
  have ht : "tasks" ∈ (createIfNotExists "sync_meta" (createIfNotExists "tasks" f)).tables :=
    h2 "sync_meta" "tasks" _ (h1 "tasks" f)
  have hs : "sync_meta" ∈ (createIfNotExists "sync_meta" (createIfNotExists "tasks" f)).tables :=
    h1 "sync_meta" (createIfNotExists "tasks" f)
  show createIfNotExists "sync_meta"
      (createIfNotExists "tasks" (createIfNotExists "sync_meta" (createIfNotExists "tasks" f))) =
    createIfNotExists "sync_meta" (createIfNotExists "tasks" f)
  rw [h3 "tasks" _ ht, h3 "sync_meta" _ hs]

/-! ### C6: all_tasks on an undecodable row -/

/-- A stored tasks table whose second row does not decode to a
TaskMap. -/
def corruptDb : SqliteDb :=
  ⟨[("a", Json.obj [("k", "v")]), ("b", Json.invalid "not json"), ("c", Json.obj [])], []⟩

/-- C6 evaluation: on a table with an undecodable row, `all_tasks`
panics (the `.unwrap()` on the failing decode, marked FIXME in the
source) — it neither returns an error value nor skips the bad row. -/
theorem all_tasks_panics_on_corrupt_row :
    Txn.all_tasks ⟨some corruptDb⟩ = PanicOr.panic ∧
    db_all_tasks corruptDb = PanicOr.panic := by
  constructor <;> rfl

/-! ### C8: set_task then commit then get_task round-trips -/

/-- C8: for every uuid and TaskMap (including the empty map and maps
replacing a prior value), `set_task` then `commit`, then `get_task` in
a fresh transaction, returns exactly the stored map. -/
theorem set_task_get_task_roundtrip (s : SqliteStorage) (u : Uuid) (m : TaskMap) :
    Txn.set_task u m (SqliteStorage.txn s) =
      Except.ok ((), ⟨some (db_set_task u m s.db)⟩) ∧
    Txn.commit ⟨some (db_set_task u m s.db)⟩ s =
      Except.ok (⟨db_set_task u m s.db⟩, ⟨none⟩) ∧
    Txn.get_task u (SqliteStorage.txn ⟨db_set_task u m s.db⟩) =
      Except.ok (some m, ⟨some (db_set_task u m s.db)⟩) := by
  refine ⟨rfl, rfl, ?_⟩
  simp [Txn.get_task, Txn.liftRead, SqliteStorage.txn, db_get_task, db_set_task,
    rowGet_upsert, encodeTaskMap, decodeOptTaskMap, decodeTaskMap, Except.map]

/-! ### C9: base_version default and set -/

/-- C9: when the `base_version` key has never been set, `base_version`
returns the all-zero default identifier; and after `set_base_version`
and `commit`, `base_version` in a fresh transaction returns the stored
version. -/
theorem base_version_default_and_set (db : SqliteDb)
    (h : metaGet "base_version" db.sync_meta = none)
    (v : VersionId) (s : SqliteStorage) :
    db_base_version db = DEFAULT_BASE_VERSION ∧
    DEFAULT_BASE_VERSION = "00000000-0000-0000-0000-000000000000" ∧
    Txn.set_base_version v (SqliteStorage.txn s) =
      Except.ok ((), ⟨some (db_set_base_version v s.db)⟩) ∧
    Txn.commit ⟨some (db_set_base_version v s.db)⟩ s =
      Except.ok (⟨db_set_base_version v s.db⟩, ⟨none⟩) ∧
    Txn.base_version (SqliteStorage.txn ⟨db_set_base_version v s.db⟩) =
      Except.ok (v, ⟨some (db_set_base_version v s.db)⟩) := by
  refine ⟨by simp [db_base_version, h], rfl, rfl, rfl, ?_⟩
  simp [Txn.base_version, Txn.liftRead, SqliteStorage.txn, db_base_version,
    db_set_base_version, metaGet_upsert, Except.map]

/-- Witness for C9 at a fresh store and a concrete version string. -/
theorem base_version_default_and_set_witness :
    db_base_version SqliteDb.empty = DEFAULT_BASE_VERSION ∧
    Txn.base_version (SqliteStorage.txn ⟨db_set_base_version "11111111-abcd-0000-0000-000000000000" SqliteDb.empty⟩) =
      Except.ok ("11111111-abcd-0000-0000-000000000000",
        ⟨some (db_set_base_version "11111111-abcd-0000-0000-000000000000" SqliteDb.empty)⟩) := by
  have h := base_version_default_and_set SqliteDb.empty rfl
    "11111111-abcd-0000-0000-000000000000" ⟨SqliteDb.empty⟩
  exact ⟨h.1, h.2.2.2.2⟩

/-! ### C10: a stored JSON null row reads as absent -/

/-- C10: because `get_task` deserializes the stored string at type
`Option<TaskMap>`, a row holding the JSON literal `null` yields
`Ok(None)` — no map and no decode error — exactly like an absent row,
so the two are indistinguishable to callers. -/
theorem get_task_null_row_reads_absent (u : Uuid) (db : SqliteDb) :
    (rowGet u db.tasks = some Json.null →
      Txn.get_task u ⟨some db⟩ = Except.ok (none, ⟨some db⟩)) ∧
    (rowGet u db.tasks = none →
      Txn.get_task u ⟨some db⟩ = Except.ok (none, ⟨some db⟩)) := by
  constructor <;> intro h <;>
    simp [Txn.get_task, Txn.liftRead, db_get_task, h, decodeOptTaskMap, Except.map]

/-- Witness for C10: a table holding `null` under uuid `n`, read back;
and the same read on an empty table. -/
theorem get_task_null_row_reads_absent_witness :
    Txn.get_task "n" ⟨some ⟨[("n", Json.null)], []⟩⟩ =
      Except.ok (none, ⟨some ⟨[("n", Json.null)], []⟩⟩) ∧
    Txn.get_task "n" ⟨some SqliteDb.empty⟩ =
      Except.ok (none, ⟨some SqliteDb.empty⟩) :=
  ⟨(get_task_null_row_reads_absent "n" ⟨[("n", Json.null)], []⟩).1 rfl,
   (get_task_null_row_reads_absent "n" SqliteDb.empty).2 rfl⟩

/-! ### C2: set_operations replaces the log; appends follow in order -/

/-- C2 evaluation: the operation-log methods are `todo!()` stubs, so
`set_operations(S)` panics on every transaction (live or committed) —
the log is never replaced and `operations()` (which also panics) can
never return `S`; `add_operation` panics likewise.  The claimed
behavior is exactly what the file's own `test_operations` asserts, so
the claim reflects intent and the code is unimplemented. -/
theorem set_operations_stub_panics (S : List Operation) (op : Operation) (t : Txn)
    (s : SqliteStorage) :
    Txn.set_operations S t = PanicOr.panic ∧
    Txn.add_operation op t = PanicOr.panic ∧
    Txn.operations t = PanicOr.panic ∧
    Txn.set_operations S (SqliteStorage.txn s) = PanicOr.panic :=
  ⟨rfl, rfl, rfl, rfl⟩

/-! ### C3: working-set methods -/

/-- C3 evaluation: the working-set methods are `todo!()` stubs, so
`add_to_working_set(u)` panics on every transaction — no index is
computed or returned and no slot is written — and `get_working_set()`
panics even on an empty working set instead of returning `[empty]`.
The claimed behavior is exactly what the file's own working-set tests
assert, so the claim reflects intent and the code is unimplemented. -/
theorem add_to_working_set_stub_panics (u : Uuid) (i : Nat) (o : Option Uuid) (t : Txn)
    (s : SqliteStorage) :
    Txn.add_to_working_set u t = PanicOr.panic ∧
    Txn.get_working_set t = PanicOr.panic ∧
    Txn.set_working_set_item i o t = PanicOr.panic ∧
    Txn.clear_working_set t = PanicOr.panic ∧
    Txn.get_working_set (SqliteStorage.txn s) = PanicOr.panic :=
  ⟨rfl, rfl, rfl, rfl, rfl⟩

/-! ### C7: create_task lifecycle -/

theorem rowGet_append_of_not_exists (u : Uuid) (j : Json) (rows : List (Uuid × Json))
    (h : rows.any (fun r => r.1 == u) = false) :
    rowGet u (rows ++ [(u, j)]) = some j := by
  simp [rowGet, find_key_of_not_exists u j rows h]

/-- Every transaction write other than `delete_task(u)` keeps an
existing uuid `u` in the tasks table. -/
theorem taskExists_preserved (u : Uuid) (op : TxnOp) (db : SqliteDb)
    (hop : op ≠ TxnOp.deleteTask u) (h : taskExists u db = true) :
    taskExists u (applyDbOp db op) = true := by
  cases op with
  | createTask v =>
    cases hv : taskExists v db with
    | true => simpa [applyDbOp, db_create_task, hv] using h
    | false =>
      simp only [taskExists] at h hv
      simp [applyDbOp, db_create_task, hv, taskExists, List.any_append, h]
  | setTask v m =>
    simp only [applyDbOp, db_set_task, upsertRow, taskExists, List.any_append,
      Bool.or_eq_true]
    by_cases hvu : v = u
    · subst hvu
      simp
    · simp only [taskExists, List.any_eq_true] at h
      obtain ⟨r, hr, hru⟩ := h
      have hrv : r.1 ≠ v := by
        simp only [beq_iff_eq] at hru
        rw [hru]
        exact fun he => hvu he.symm
      exact Or.inl (List.any_eq_true.mpr ⟨r, List.mem_filter.mpr ⟨hr, by simp [hrv]⟩, hru⟩)
  | deleteTask v =>
    have hvu : v ≠ u := fun he => hop (by rw [he])
    simp only [applyDbOp, db_delete_task, taskExists]
    simp only [taskExists, List.any_eq_true] at h
    obtain ⟨r, hr, hru⟩ := h
    have hrv : r.1 ≠ v := by
      simp only [beq_iff_eq] at hru
      rw [hru]
      exact fun he => hvu he.symm
    exact List.any_eq_true.mpr ⟨r, List.mem_filter.mpr ⟨hr, by simp [hrv]⟩, hru⟩
  | setBaseVersion v => simpa [applyDbOp, db_set_base_version, taskExists] using h
  | addOperation op => simpa [applyDbOp, taskExists] using h
  | setOperationsOp l => simpa [applyDbOp, taskExists] using h
  | addToWorkingSet v => simpa [applyDbOp, taskExists] using h
  | setWorkingSetItem i o => simpa [applyDbOp, taskExists] using h
  | clearWorkingSet => simpa [applyDbOp, taskExists] using h

theorem taskExists_foldl (u : Uuid) (L : List TxnOp) (db : SqliteDb)
    (hL : TxnOp.deleteTask u ∉ L) (h : taskExists u db = true) :
    taskExists u (L.foldl applyDbOp db) = true := by
  induction L generalizing db with
  | nil => simpa using h
  | cons op rest ih =>
    simp only [List.mem_cons, not_or] at hL
    simp only [List.foldl_cons]
    exact ih _ hL.2 (taskExists_preserved u op db (fun he => hL.1 he.symm) h)

/-- C7: `create_task(u)` returns `true` exactly when `u` is absent —
in which case the empty TaskMap is inserted, so `get_task(u)` yields
it — and `false` without error when `u` exists; after a successful
create, any sequence of writes not containing `delete_task(u)` leaves
`u` present, so `create_task(u)` cannot return `true` again before a
`delete_task(u)` (which, on a present row, returns `true`). -/
theorem create_task_lifecycle (db : SqliteDb) (u : Uuid) :
    (taskExists u db = false →
      Txn.create_task u ⟨some db⟩ =
        Except.ok (true, ⟨some { db with tasks := db.tasks ++ [(u, encodeTaskMap [])] }⟩) ∧
      Txn.get_task u ⟨some { db with tasks := db.tasks ++ [(u, encodeTaskMap [])] }⟩ =
        Except.ok (some [], ⟨some { db with tasks := db.tasks ++ [(u, encodeTaskMap [])] }⟩) ∧
      ∀ L : List TxnOp, TxnOp.deleteTask u ∉ L →
        (db_create_task u
          (L.foldl applyDbOp { db with tasks := db.tasks ++ [(u, encodeTaskMap [])] })).1 =
          false) ∧
    (taskExists u db = true →
      Txn.create_task u ⟨some db⟩ = Except.ok (false, ⟨some db⟩) ∧
      (db_delete_task u db).1 = true) := by
  constructor
  · intro hfalse
    refine ⟨?_, ?_, ?_⟩
    · simp [Txn.create_task, Txn.liftWrite, db_create_task, hfalse]
    · have hget : rowGet u (db.tasks ++ [(u, Json.obj [])]) = some (Json.obj []) :=
        rowGet_append_of_not_exists u (Json.obj []) db.tasks (by simpa [taskExists] using hfalse)
      simp only [Txn.get_task, Txn.liftRead, db_get_task, encodeTaskMap, hget]
      rfl
    · intro L hL
      have hex : taskExists u { db with tasks := db.tasks ++ [(u, encodeTaskMap [])] } = true := by
        simp [taskExists, List.any_append]
      have hkeep := taskExists_foldl u L _ hL hex
      simp [db_create_task, hkeep]
  · intro htrue
    refine ⟨by simp [Txn.create_task, Txn.liftWrite, db_create_task, htrue], ?_⟩
    simpa [db_delete_task, taskExists] using htrue

/-- A store already holding uuid `u` with the empty map. -/
def dbWithU : SqliteDb := ⟨[("u", Json.obj [])], []⟩

/-- Witness for C7: create in a fresh store returns `true`; after a
further `set_task` (no delete), a second create returns `false`; and
create on a store already holding the uuid returns `false`. -/
theorem create_task_lifecycle_witness :
    Txn.create_task "u" ⟨some SqliteDb.empty⟩ =
      Except.ok (true,
        ⟨some { SqliteDb.empty with
                tasks := SqliteDb.empty.tasks ++ [("u", encodeTaskMap [])] }⟩) ∧
    (db_create_task "u"
      ([TxnOp.setTask "u" [("k", "v")]].foldl applyDbOp
        { SqliteDb.empty with
          tasks := SqliteDb.empty.tasks ++ [("u", encodeTaskMap [])] })).1 = false ∧
    Txn.create_task "u" ⟨some dbWithU⟩ = Except.ok (false, ⟨some dbWithU⟩) :=
  ⟨((create_task_lifecycle SqliteDb.empty "u").1 (by decide)).1,
   ((create_task_lifecycle SqliteDb.empty "u").1 (by decide)).2.2
     [TxnOp.setTask "u" [("k", "v")]] (by decide),
   ((create_task_lifecycle dbWithU "u").2 (by decide)).1⟩

end TaskchampionSqlite
